import Mathlib

/-
Verification development for the mocha-chai-superagent-demo repository.

The definitions below are a shallow embedding of the HTTP request and
validation layer of the repository:
  - src/test/utils/http-client.js   (HttpClient)
  - src/test/utils/test-helpers.js  (retry, responseValidations, schemaValidations)
  - the global chai setup file      (custom responseTime / clientErrorStatus assertions)
  - the base resource client and the base page object
    (validateSuccessResponse, expectClientError)

JavaScript values that matter to the checked code are modelled explicitly:
objects are association lists of string keys, absent properties are the
none case of Option, and the JavaScript truthiness of numbers (0 is falsy)
is modelled where the source relies on it.
-/

namespace MochaDemo

/-- JavaScript values as far as the validated code inspects them: numbers,
strings, booleans, null, and object references whose inner structure the
validators never read (carried as an opaque tag). -/
inductive JsVal where
  | vnum (n : Int)
  | vstr (s : String)
  | vobj (tag : Nat)
  | vbool (b : Bool)
  | vnull
deriving DecidableEq, Repr

/-- Property access on a JavaScript object modelled as an association list:
the first entry with the requested key wins, a missing key reads as
undefined (none). -/
def aLookup {α : Type} (k : String) : List (String × α) → Option α
  | [] => none
  | p :: rest => if p.1 = k then some p.2 else aLookup k rest

/-- Assignment of one property on a JavaScript object: an existing key is
overwritten in place, a new key is appended at the end, matching the
property-order semantics of object literals and spread. -/
def objInsert {α : Type} (m : List (String × α)) (k : String) (v : α) : List (String × α) :=
  if m.any (fun p => p.1 == k) then
    m.map (fun p => if p.1 = k then (k, v) else p)
  else
    m ++ [(k, v)]

/-- Object spread as in the source, left object first then the right
object property by property, so a key collision is won by the right
object. -/
def objSpread {α : Type} (d h : List (String × α)) : List (String × α) :=
  h.foldl (fun m p => objInsert m p.1 p.2) d

/-- Disjunction of two optional numbers with the JavaScript rule that both
undefined and 0 are falsy, as used by the custom responseTime assertion. -/
def jsOrInt (a b : Option Int) : Option Int :=
  match a with
  | some n => if n = 0 then b else some n
  | none => b

/-- Comparison actual <= bound where actual may be undefined: a comparison
against undefined is false in JavaScript. -/
def jsLe (a : Option Int) (b : Int) : Bool :=
  match a with
  | some n => decide (n ≤ b)
  | none => false

/-- Superagent response object as the validators see it: the fields status,
body and headers may be absent, and the client attaches duration; a
responseTime field is kept because the custom chai assertion falls back to
it. -/
structure RespObj where
  status : Option Nat := none
  body : Option JsVal := none
  headers : Option (List (String × String)) := none
  duration : Option Int := none
  responseTime : Option Int := none
deriving DecidableEq, Repr

/-- Custom chai assertion responseTime from the global test setup: it reads
obj.duration with a fallback to obj.responseTime through JavaScript
truthiness and asserts the result is <= expectedTime; true means the
assertion passes. -/
def chaiHasResponseTime (r : RespObj) (expectedTime : Int) : Bool :=
  jsLe (jsOrInt r.duration r.responseTime) expectedTime

/-- Custom chai assertion clientErrorStatus from the global test setup: it
reads obj.status (with the statusCode fallback being absent on the modelled
response objects) and asserts 400 <= status < 500. -/
def chaiClientErrorStatus (r : RespObj) : Bool :=
  match (match r.status with
         | some n => if n = 0 then none else some n
         | none => none : Option Nat) with
  | some s => decide (400 ≤ s) && decide (s < 500)
  | none => false

/-- Whether the character list needle appears as a prefix of hay. -/
def listStartsWith : List Char → List Char → Bool
  | _, [] => true
  | [], _ :: _ => false
  | a :: as, b :: bs => a == b && listStartsWith as bs

/-- Whether the character list needle appears contiguously inside hay. -/
def listContainsSeq (needle : List Char) : List Char → Bool
  | [] => listStartsWith [] needle
  | c :: rest => listStartsWith (c :: rest) needle || listContainsSeq needle rest

/-- String inclusion check backing the chai include assertion. -/
def strContains (hay needle : String) : Bool :=
  listContainsSeq needle.data hay.data

/-- responseValidations.validateBasicResponse from test-helpers.js: the
response exists and has the properties status, body and headers. -/
def validateBasicResponse (r : RespObj) : Bool :=
  r.status.isSome && r.body.isSome && r.headers.isSome

/-- responseValidations.validateJsonContentType from test-helpers.js: the
headers object has a content-type property whose value includes
application/json. -/
def validateJsonContentType (r : RespObj) : Bool :=
  match r.headers with
  | none => false
  | some hs =>
    match aLookup "content-type" hs with
    | some v => strContains v "application/json"
    | none => false

/-- responseValidations.validateResponseTime from test-helpers.js: defers
to the custom chai responseTime assertion; the source default for maxTime
is 3000. -/
def validateResponseTime (r : RespObj) (maxTime : Int) : Bool :=
  chaiHasResponseTime r maxTime

/-- Chai check that a property is present and is a number. -/
def isNumProp (v : Option JsVal) : Bool :=
  match v with
  | some (.vnum _) => true
  | _ => false

/-- Chai check that a property is present and is a string. -/
def isStrProp (v : Option JsVal) : Bool :=
  match v with
  | some (.vstr _) => true
  | _ => false

/-- Chai check that a property is present and is an object. -/
def isObjProp (v : Option JsVal) : Bool :=
  match v with
  | some (.vobj _) => true
  | _ => false

/-- schemaValidations.validateUserSchema from test-helpers.js: the user is
an object with id a number, name, username, email, phone and website
strings, and address and company objects; nothing else is inspected. -/
def validateUserSchema (u : List (String × JsVal)) : Bool :=
  isNumProp (aLookup "id" u) &&
  isStrProp (aLookup "name" u) &&
  isStrProp (aLookup "username" u) &&
  isStrProp (aLookup "email" u) &&
  isStrProp (aLookup "phone" u) &&
  isStrProp (aLookup "website" u) &&
  isObjProp (aLookup "address" u) &&
  isObjProp (aLookup "company" u)

/-- The eight field names required by the User schema in section 3 of the
specification. -/
def userRequiredFields : List String :=
  ["id", "name", "username", "email", "phone", "website", "address", "company"]

/-- State of an HttpClient instance from http-client.js: base URL, mutable
default header mapping, configured timeout in milliseconds. -/
structure HttpClient where
  baseUrl : String
  defaultHeaders : List (String × String)
  timeout : Int
deriving DecidableEq, Repr

/-- HttpClient.setDefaultHeaders: spreads the new headers over the current
defaults. -/
def setDefaultHeaders (c : HttpClient) (headers : List (String × String)) : HttpClient :=
  { c with defaultHeaders := objSpread c.defaultHeaders headers }

/-- HttpClient.setAuthToken: folds a bearer token into the default headers
through setDefaultHeaders. -/
def setAuthToken (c : HttpClient) (token : String) : HttpClient :=
  setDefaultHeaders c [("Authorization", "Bearer " ++ token)]

/-- JavaScript template interpolation of a possibly missing string
argument: undefined prints as the string undefined. -/
def jsStringOf : Option String → String
  | some s => s
  | none => "undefined"

/-- HttpClient.buildUrl: plain concatenation of base URL and endpoint with
no validation; a missing endpoint argument interpolates as undefined. -/
def buildUrl (c : HttpClient) (endpoint : Option String) : String :=
  c.baseUrl ++ jsStringOf endpoint

/-- HttpClient.addTimingInfo: stores endTime - startTime into the duration
field of the response. -/
def addTimingInfo (r : RespObj) (startTime endTime : Int) : RespObj :=
  { r with duration := some (endTime - startTime) }

/-- Error raised by the superagent transport: it may carry a structured
response, a timeout flag, and a message. -/
structure TransportError where
  response : Option RespObj
  timeout : Bool
  message : String
deriving DecidableEq, Repr

/-- Error that an HttpClient verb operation raises to its caller: either
the original transport error re-raised (with timing added to its attached
response), or a fresh timeout or network error carrying only a message. -/
inductive RaisedError where
  | original (e : TransportError)
  | timeoutError (msg : String)
  | networkError (msg : String)
deriving DecidableEq, Repr

/-- HttpClient.handleError: a transport error with an attached response is
re-raised after timing is added to that response; otherwise a timeout flag
yields a fresh timeout error and anything else a fresh network error. -/
def handleError (c : HttpClient) (e : TransportError) (startTime endTime : Int) : RaisedError :=
  match e.response with
  | some r => .original { e with response := some (addTimingInfo r startTime endTime) }
  | none =>
    if e.timeout then
      .timeoutError ("Request timeout after " ++ toString c.timeout ++ "ms")
    else
      .networkError ("Network error: " ++ e.message)

/-- The five HTTP verbs exposed by HttpClient. -/
inductive Method where
  | get | post | put | patch | delete
deriving DecidableEq, Repr

/-- Outcome of the underlying superagent transport call. -/
inductive TransportResult where
  | ok (r : RespObj)
  | err (e : TransportError)
deriving DecidableEq, Repr

/-- Observable record of one verb operation: the URL requested, the header
mapping sent, and the returned response or raised error. -/
structure RequestRecord where
  url : String
  sentHeaders : List (String × String)
  result : Except RaisedError RespObj
deriving Repr

/-- Common body of the five verb operations of HttpClient: build the URL,
spread per-call headers over the defaults, run the transport, and either
attach timing to the response or classify the failure through
handleError. The transport is passed explicitly as a function of method,
URL, body and headers; start and end timestamps stand for the two
Date.now reads. -/
def runRequest (c : HttpClient) (m : Method) (endpoint : Option String)
    (data : Option JsVal) (headers : List (String × String))
    (transport : Method → String → Option JsVal → List (String × String) → TransportResult)
    (startTime endTime : Int) : RequestRecord :=
  let url := buildUrl c endpoint
  let sent := objSpread c.defaultHeaders headers
  match transport m url data sent with
  | .ok r => ⟨url, sent, .ok (addTimingInfo r startTime endTime)⟩
  | .err e => ⟨url, sent, .error (handleError c e startTime endTime)⟩

/-- HttpClient.get. -/
def getReq (c : HttpClient) (endpoint : Option String) (headers : List (String × String))
    (transport : Method → String → Option JsVal → List (String × String) → TransportResult)
    (startTime endTime : Int) : RequestRecord :=
  runRequest c .get endpoint none headers transport startTime endTime

/-- HttpClient.post. -/
def postReq (c : HttpClient) (endpoint : Option String) (data : JsVal)
    (headers : List (String × String))
    (transport : Method → String → Option JsVal → List (String × String) → TransportResult)
    (startTime endTime : Int) : RequestRecord :=
  runRequest c .post endpoint (some data) headers transport startTime endTime

/-- HttpClient.put. -/
def putReq (c : HttpClient) (endpoint : Option String) (data : JsVal)
    (headers : List (String × String))
    (transport : Method → String → Option JsVal → List (String × String) → TransportResult)
    (startTime endTime : Int) : RequestRecord :=
  runRequest c .put endpoint (some data) headers transport startTime endTime

/-- HttpClient.patch. -/
def patchReq (c : HttpClient) (endpoint : Option String) (data : JsVal)
    (headers : List (String × String))
    (transport : Method → String → Option JsVal → List (String × String) → TransportResult)
    (startTime endTime : Int) : RequestRecord :=
  runRequest c .patch endpoint (some data) headers transport startTime endTime

/-- HttpClient.delete. -/
def deleteReq (c : HttpClient) (endpoint : Option String) (headers : List (String × String))
    (transport : Method → String → Option JsVal → List (String × String) → TransportResult)
    (startTime endTime : Int) : RequestRecord :=
  runRequest c .delete endpoint none headers transport startTime endTime

/-- Response attached to a raised error, if any; fresh timeout and network
errors carry none. -/
def carriesResponse : RaisedError → Option RespObj
  | .original e => e.response
  | .timeoutError _ => none
  | .networkError _ => none

/-- Error Envelope kinds of the specification. -/
inductive ErrKind where
  | clientError | serverError | timeoutKind | networkKind | otherKind
deriving DecidableEq, Repr

/-- Classification of a raised error into the Error Envelope kinds of the
specification: errors carrying a 4xx response are client errors, a 5xx
response server errors; fresh timeout and network errors map to their own
kinds. -/
def errorKind : RaisedError → ErrKind
  | .original e =>
    match e.response with
    | some r =>
      match r.status with
      | some s =>
        if 400 ≤ s ∧ s < 500 then .clientError
        else if 500 ≤ s ∧ s < 600 then .serverError
        else .otherKind
      | none => .otherKind
    | none => .otherKind
  | .timeoutError _ => .timeoutKind
  | .networkError _ => .networkKind

/-- Loop body of retry from test-helpers.js, indexed by the current attempt
index and the number of attempts still allowed after this one. The i-th
invocation outcome is supplied by f. The result records the value returned
or error thrown, the number of invocations of the operation, and the list
of backoff delays slept. -/
def retryAux {ε α : Type} (f : Nat → Except ε α) (delay : Nat) :
    (i : Nat) → (remaining : Nat) → Except ε α × Nat × List Nat
  | i, 0 =>
    match f i with
    | .ok a => (.ok a, 1, [])
    | .error e => (.error e, 1, [])
  | i, remaining + 1 =>
    match f i with
    | .ok a => (.ok a, 1, [])
    | .error _ =>
      let rest := retryAux f delay (i + 1) remaining
      (rest.1, rest.2.1 + 1, delay * 2 ^ i :: rest.2.2)

/-- retry from test-helpers.js: at most maxRetries + 1 invocations, delay
times 2 to the attempt index slept after each failed non-final attempt,
the last error thrown unchanged when every attempt fails; source defaults
are maxRetries 3 and delay 1000. -/
def retry {ε α : Type} (f : Nat → Except ε α) (maxRetries delay : Nat) :
    Except ε α × Nat × List Nat :=
  retryAux f delay 0 maxRetries

/-- BaseApiClient.validateSuccessResponse: basic response shape, exact
status match, JSON content type when the expected status is below 400;
returns the body when every assertion passes, none when one raises. -/
def apiValidateSuccessResponse (r : RespObj) (expectedStatus : Nat) : Option JsVal :=
  if validateBasicResponse r
      && (r.status == some expectedStatus)
      && (if expectedStatus < 400 then validateJsonContentType r else true) then
    r.body
  else
    none

/-- BasePageObject.validateAndGetBody: same assertions as the resource
client validator. -/
def pageValidateAndGetBody (r : RespObj) (expectedStatus : Nat) : Option JsVal :=
  if validateBasicResponse r
      && (r.status == some expectedStatus)
      && (if expectedStatus < 400 then validateJsonContentType r else true) then
    r.body
  else
    none

/-- BasePageObject.validateSuccessResponse: validateAndGetBody followed by
the response-time validation at the source default bound of 3000. -/
def pageValidateSuccessResponse (r : RespObj) (expectedStatus : Nat) : Option JsVal :=
  match pageValidateAndGetBody r expectedStatus with
  | some b => if validateResponseTime r 3000 then some b else none
  | none => none

/-- Error rejected by a request function wrapped in expectClientError: it
either carries a response or is a bare error identified by a tag. -/
inductive ReqErr where
  | withResponse (r : RespObj)
  | plain (tag : Nat)
deriving DecidableEq, Repr

/-- Outcome of BaseApiClient.expectClientError: the attached response
returned, a chai assertion raised, the original error re-raised unchanged,
or the fresh failure raised because the request unexpectedly succeeded. -/
inductive ExpectOutcome where
  | returned (r : RespObj)
  | assertionFailed (msg : String)
  | rethrown (e : ReqErr)
  | raisedExpectedFailure
deriving DecidableEq, Repr

/-- BaseApiClient.expectClientError: a successful request raises a fresh
failure (which the own catch block re-raises since it has no response); a
rejection carrying a response must satisfy the clientErrorStatus assertion
and equal the expected status, and is then returned; a rejection without a
response is re-raised unchanged. -/
def expectClientError (res : Except ReqErr JsVal) (expectedStatus : Nat) : ExpectOutcome :=
  match res with
  | .ok _ => .raisedExpectedFailure
  | .error e =>
    match e with
    | .withResponse r =>
      if chaiClientErrorStatus r then
        if r.status == some expectedStatus then
          .returned r
        else
          .assertionFailed "expected status to equal the expected status"
      else
        .assertionFailed "expected status to be client error 4xx"
    | .plain t => .rethrown (.plain t)

/-! Association-list lemmas about property lookup under objInsert and
objSpread. -/

theorem objSpread_nil {α : Type} (d : List (String × α)) : objSpread d [] = d := rfl

theorem objSpread_cons {α : Type} (d : List (String × α)) (p : String × α)
    (t : List (String × α)) :
    objSpread d (p :: t) = objSpread (objInsert d p.1 p.2) t := rfl

theorem aLookup_map_ne {α : Type} (m : List (String × α)) (k k' : String) (v : α)
    (h : k' ≠ k) :
    aLookup k' (m.map (fun p => if p.1 = k then (k, v) else p)) = aLookup k' m := by
  induction m with
  | nil => rfl
  | cons p rest ih =>
    by_cases hp : p.1 = k
    · have h1 : ¬ (k = k') := by
        intro hc
        exact h hc.symm
      have h2 : ¬ (p.1 = k') := by
        intro hc
        exact h1 (hp.symm.trans hc)
      simp only [List.map_cons, if_pos hp, aLookup]
      rw [if_neg h1, if_neg h2, ih]
    · simp only [List.map_cons, if_neg hp, aLookup, ih]

theorem aLookup_map_self {α : Type} (m : List (String × α)) (k : String) (v : α)
    (hmem : m.any (fun p => p.1 == k) = true) :
    aLookup k (m.map (fun p => if p.1 = k then (k, v) else p)) = some v := by
  induction m with
  | nil => simp at hmem
  | cons p rest ih =>
    by_cases hp : p.1 = k
    · simp [List.map_cons, if_pos hp, aLookup]
    · have hfalse : (p.1 == k) = false := by
        simp [hp]
      have hrest : rest.any (fun p => p.1 == k) = true := by
        rw [List.any_cons, hfalse] at hmem
        simpa using hmem
      simp only [List.map_cons, if_neg hp, aLookup, if_neg hp, ih hrest]

theorem aLookup_append_single {α : Type} (m : List (String × α)) (k k' : String) (v : α)
    (hmem : m.any (fun p => p.1 == k) = false) :
    aLookup k' (m ++ [(k, v)]) = if k' = k then some v else aLookup k' m := by
  induction m with
  | nil =>
    by_cases hk : k' = k
    · subst hk
      simp [aLookup]
    · have hk2 : ¬ (k = k') := by
        intro hc
        exact hk hc.symm
      simp [aLookup, hk, hk2]
  | cons p rest ih =>
    have hp : ¬ p.1 = k := by
      intro hc
      simp [List.any_cons, hc] at hmem
    have hfalse : (p.1 == k) = false := by
      simp [hp]
    have hrest : rest.any (fun p => p.1 == k) = false := by
      rw [List.any_cons, hfalse] at hmem
      simpa using hmem
    by_cases hpk : p.1 = k'
    · have hk : ¬ k' = k := by
        intro hc
        exact hp (hpk.trans hc)
      simp [aLookup, hpk, hk]
    · simp only [List.cons_append, aLookup, if_neg hpk]
      exact ih hrest

theorem aLookup_objInsert {α : Type} (m : List (String × α)) (k : String) (v : α)
    (k' : String) :
    aLookup k' (objInsert m k v) = if k' = k then some v else aLookup k' m := by
  unfold objInsert
  cases hmem : m.any (fun p => p.1 == k) with
  | true =>
    by_cases hk : k' = k
    · subst hk
      simp [hmem, aLookup_map_self m k' v hmem]
    · simp [hmem, aLookup_map_ne m k k' v hk, hk]
  | false =>
    simp only [hmem, Bool.false_eq_true, if_neg (fun hc : False => hc)]
    simpa using aLookup_append_single m k k' v hmem

theorem aLookup_eq_none_of_not_mem {α : Type} (m : List (String × α)) (k : String)
    (h : k ∉ m.map Prod.fst) : aLookup k m = none := by
  induction m with
  | nil => rfl
  | cons p rest ih =>
    have hp : ¬ p.1 = k := by
      intro hc
      exact h (by simp [hc])
    have hrest : k ∉ rest.map Prod.fst := by
      intro hc
      exact h (by simp [hc])
    simp [aLookup, hp, ih hrest]

theorem objSpread_aLookup_of_none {α : Type} (h : List (String × α)) (k : String)
    (hk : aLookup k h = none) :
    ∀ d : List (String × α), aLookup k (objSpread d h) = aLookup k d := by
  induction h with
  | nil => intro d; rfl
  | cons p t ih =>
    intro d
    have h1 : ¬ p.1 = k := by
      intro hc
      simp [aLookup, hc] at hk
    have h2 : aLookup k t = none := by
      simpa [aLookup, h1] using hk
    have h3 : ¬ k = p.1 := by
      intro hc
      exact h1 hc.symm
    rw [objSpread_cons, ih h2, aLookup_objInsert, if_neg h3]

theorem objSpread_aLookup {α : Type} (h : List (String × α))
    (hnd : (h.map Prod.fst).Nodup) (d : List (String × α)) (k : String) :
    aLookup k (objSpread d h)
      = match aLookup k h with
        | some v => some v
        | none => aLookup k d := by
  induction h generalizing d with
  | nil => rfl
  | cons p t ih =>
    have hnd2 : p.1 ∉ t.map Prod.fst ∧ (t.map Prod.fst).Nodup := by
      rw [List.map_cons, List.nodup_cons] at hnd
      exact hnd
    rw [objSpread_cons, ih hnd2.2]
    by_cases hk : p.1 = k
    · have ht : aLookup k t = none := aLookup_eq_none_of_not_mem t k (hk ▸ hnd2.1)
      have hhead : aLookup k (p :: t) = some p.2 := by
        simp [aLookup, hk]
      rw [ht, hhead, aLookup_objInsert, if_pos hk.symm]
    · have hk2 : ¬ k = p.1 := by
        intro hc
        exact hk hc.symm
      have hhead : aLookup k (p :: t) = aLookup k t := by
        simp [aLookup, hk]
      rw [hhead]
      cases hcase : aLookup k t with
      | some v => simp
      | none => rw [aLookup_objInsert, if_neg hk2]

/-! Lemmas about the retry loop. -/

theorem rangePowCons (d i r : Nat) :
    (List.range (r + 1)).map (fun j => d * 2 ^ (i + j))
      = d * 2 ^ i :: (List.range r).map (fun j => d * 2 ^ (i + 1 + j)) := by
  rw [List.range_succ_eq_map, List.map_cons, List.map_map]
  have htail : List.map ((fun j => d * 2 ^ (i + j)) ∘ Nat.succ) (List.range r)
      = List.map (fun j => d * 2 ^ (i + 1 + j)) (List.range r) := by
    apply List.map_congr_left
    intro a _
    have hj : i + (a + 1) = i + 1 + a := by omega
    simp [Function.comp, Nat.succ_eq_add_one, hj]
  rw [htail]
  simp

theorem retryAux_all_fail {ε α : Type} (f : Nat → Except ε α) (err : Nat → ε) (d : Nat)
    (hf : ∀ i, f i = .error (err i)) :
    ∀ (rem i : Nat), retryAux f d i rem
      = (.error (err (i + rem)), rem + 1, (List.range rem).map (fun j => d * 2 ^ (i + j))) := by
  intro rem
  induction rem with
  | zero =>
    intro i
    simp [retryAux, hf i]
  | succ r ih =>
    intro i
    have hr := ih (i + 1)
    have h1 : i + 1 + r = i + (r + 1) := by omega
    have h2 := rangePowCons d i r
    simp only [retryAux, hf i]
    rw [hr, h1, h2]

theorem retryAux_succeeds {ε α : Type} (f : Nat → Except ε α) (d : Nat) (a : α) :
    ∀ (N i rem : Nat), N ≤ rem →
      (∀ j, j < N → ∃ e, f (i + j) = .error e) → f (i + N) = .ok a →
      retryAux f d i rem = (.ok a, N + 1, (List.range N).map (fun j => d * 2 ^ (i + j))) := by
  intro N
  induction N with
  | zero =>
    intro i rem _ _ hok
    rw [Nat.add_zero] at hok
    cases rem with
    | zero => simp [retryAux, hok]
    | succ r => simp [retryAux, hok]
  | succ n ih =>
    intro i rem hle hfail hok
    cases rem with
    | zero => omega
    | succ r =>
      obtain ⟨e0, he0⟩ := hfail 0 (by omega)
      rw [Nat.add_zero] at he0
      have hrest := ih (i + 1) r (by omega)
        (by
          intro j hj
          obtain ⟨e, he⟩ := hfail (j + 1) (by omega)
          exact ⟨e, by rw [show i + 1 + j = i + (j + 1) by omega]; exact he⟩)
        (by rw [show i + 1 + n = i + (n + 1) by omega]; exact hok)
      have h2 := rangePowCons d i n
      simp only [retryAux, he0]
      rw [hrest, h2]

/-- C2: retry invokes the operation exactly K + 1 times when it always
fails, sleeping delay times 2 to the power i after the failed attempt of
index i for every i < K, and finally raises exactly the error of the last
attempt; when the operation first succeeds on attempt N + 1 with N at most
K, retry returns that success value after exactly N + 1 invocations with
delays delay, delay times 2, delay times 4 and so on between the failed
attempts. -/
theorem C2_retry_exponential_backoff {ε α : Type} (f : Nat → Except ε α)
    (err : Nat → ε) (K d : Nat) :
    ((∀ i, f i = .error (err i)) →
      retry f K d = (.error (err K), K + 1, (List.range K).map (fun i => d * 2 ^ i))) ∧
    (∀ (a : α) (N : Nat), N ≤ K → (∀ i, i < N → ∃ e, f i = .error e) → f N = .ok a →
      retry f K d = (.ok a, N + 1, (List.range N).map (fun i => d * 2 ^ i))) := by
  constructor
  · intro hf
    have h := retryAux_all_fail f err d hf K 0
    simpa [retry] using h
  · intro a N hle hfail hok
    have h := retryAux_succeeds f d a N 0 K hle
      (by
        intro j hj
        simpa using hfail j hj)
      (by simpa using hok)
    simpa [retry] using h

/-- Operation used by the C2 witness: fails on the first two invocations
and succeeds on the third. -/
def retrySampleOp : Nat → Except Nat String :=
  fun i => if i < 2 then .error i else .ok "done"

/-- Witness for C2: the sample operation under maxRetries 5 and base delay
100 returns its success value after 3 invocations with delays 100 and
200. -/
theorem C2_retry_exponential_backoff_witness :
    retry retrySampleOp 5 100 = (.ok "done", 3, [100, 200]) := by
  have h := (C2_retry_exponential_backoff retrySampleOp (fun i => i) 5 100).2 "done" 2
    (by omega)
    (by
      intro i hi
      interval_cases i
      · exact ⟨0, rfl⟩
      · exact ⟨1, rfl⟩)
    rfl
  simpa using h

/-! Concrete fixtures used by witnesses and counterexamples. -/

/-- Client configured as in test-config.js. -/
def cfgClient : HttpClient :=
  { baseUrl := "https://jsonplaceholder.typicode.com"
    defaultHeaders := [("Content-Type", "application/json"), ("Accept", "application/json")]
    timeout := 10000 }

/-- A successful JSON response. -/
def okResp : RespObj :=
  { status := some 200, body := some (.vobj 1),
    headers := some [("content-type", "application/json")] }

/-- Transport that always succeeds with okResp. -/
def okTransport : Method → String → Option JsVal → List (String × String) → TransportResult :=
  fun _ _ _ _ => .ok okResp

/-- A 404 response as superagent attaches it to a transport error. -/
def resp404 : RespObj :=
  { status := some 404, body := some (.vobj 0),
    headers := some [("content-type", "application/json")] }

/-- Transport error carrying the 404 response. -/
def err404 : TransportError :=
  { response := some resp404, timeout := false, message := "Not Found" }

/-- Transport that always fails with err404. -/
def errTransport : Method → String → Option JsVal → List (String × String) → TransportResult :=
  fun _ _ _ _ => .err err404

/-- C1: when the transport fails, a transport error carrying a structured
response is re-raised as the original error with the elapsed time attached
to that response; a transport timeout without a response raises a fresh
timeout error carrying no response; any other transport failure raises a
fresh network error carrying no response; and in every transport failure
case the verb operation raises (no error is swallowed). -/
theorem C1_failure_classification (c : HttpClient) (m : Method) (endpoint : Option String)
    (data : Option JsVal) (headers : List (String × String))
    (transport : Method → String → Option JsVal → List (String × String) → TransportResult)
    (startTime endTime : Int) (e : TransportError)
    (ht : transport m (buildUrl c endpoint) data (objSpread c.defaultHeaders headers) = .err e) :
    (∀ r, e.response = some r →
      (runRequest c m endpoint data headers transport startTime endTime).result
        = .error (.original { e with
            response := some { r with duration := some (endTime - startTime) } })) ∧
    (e.response = none → e.timeout = true →
      (runRequest c m endpoint data headers transport startTime endTime).result
        = .error (.timeoutError ("Request timeout after " ++ toString c.timeout ++ "ms")) ∧
      carriesResponse (.timeoutError ("Request timeout after " ++ toString c.timeout ++ "ms"))
        = none) ∧
    (e.response = none → e.timeout = false →
      (runRequest c m endpoint data headers transport startTime endTime).result
        = .error (.networkError ("Network error: " ++ e.message)) ∧
      carriesResponse (.networkError ("Network error: " ++ e.message)) = none) ∧
    (∃ re, (runRequest c m endpoint data headers transport startTime endTime).result
        = .error re) := by
  have hres : (runRequest c m endpoint data headers transport startTime endTime).result
      = .error (handleError c e startTime endTime) := by
    simp [runRequest, ht]
  refine ⟨?_, ?_, ?_, ⟨_, hres⟩⟩
  · intro r hr
    rw [hres]
    simp [handleError, hr, addTimingInfo]
  · intro h1 h2
    rw [hres]
    simp [handleError, h1, h2, carriesResponse]
  · intro h1 h2
    rw [hres]
    simp [handleError, h1, h2, carriesResponse]

/-- Witness for C1: a transport failure carrying a 404 response, start
time 5, end time 9, is re-raised as the original error with duration 4 on
its response. -/
theorem C1_failure_classification_witness :
    (runRequest cfgClient .get (some "/users/9999") none [] errTransport 5 9).result
      = .error (.original { err404 with
          response := some { resp404 with duration := some 4 } }) := by
  have h := (C1_failure_classification cfgClient .get (some "/users/9999") none []
      errTransport 5 9 err404 rfl).1 resp404 rfl
  exact h

/-- Response with recorded duration 0, as the timed client produces for a
request completing within one millisecond. -/
def zeroDurationResp : RespObj :=
  { status := some 200, body := some (.vobj 0),
    headers := some [("content-type", "application/json")],
    duration := some 0, responseTime := none }

/-- C3: the claim requires validateResponseTime(resp, max) to pass exactly
when the recorded duration is at most max, in particular to pass at
duration 0 with max nonnegative; the custom assertion reads obj.duration
through JavaScript truthiness (0 is falsy) and falls back to the absent
responseTime field, so a response with recorded duration 0 fails the
assertion although 0 is at most 3000. -/
theorem C3_zero_duration_assertion_fails :
    zeroDurationResp.duration = some 0 ∧ ((0 : Int) ≤ 3000) ∧
    validateResponseTime zeroDurationResp 3000 = false := by
  refine ⟨rfl, by norm_num, rfl⟩

/-- C4: with a monotone clock, a transport success is returned with a
nonnegative duration attached, and every raised error that carries a
response carries it with a nonnegative duration attached and is of kind
client-error exactly when that response has a 4xx status, of kind
server-error exactly when it has a 5xx status. -/
theorem C4_duration_invariant (c : HttpClient) (m : Method) (endpoint : Option String)
    (data : Option JsVal) (headers : List (String × String))
    (transport : Method → String → Option JsVal → List (String × String) → TransportResult)
    (startTime endTime : Int) (hclock : startTime ≤ endTime) :
    (∀ r, transport m (buildUrl c endpoint) data (objSpread c.defaultHeaders headers) = .ok r →
      ∃ d, (runRequest c m endpoint data headers transport startTime endTime).result
          = .ok { r with duration := some d } ∧ 0 ≤ d) ∧
    (∀ re, (runRequest c m endpoint data headers transport startTime endTime).result
          = .error re →
      ∀ r, carriesResponse re = some r →
        (∃ d, r.duration = some d ∧ 0 ≤ d) ∧
        (errorKind re = .clientError ↔ ∃ s, r.status = some s ∧ 400 ≤ s ∧ s < 500) ∧
        (errorKind re = .serverError ↔ ∃ s, r.status = some s ∧ 500 ≤ s ∧ s < 600)) := by
  constructor
  · intro r htr
    refine ⟨endTime - startTime, ?_, by omega⟩
    simp [runRequest, htr, addTimingInfo]
  · intro re hre r hr
    cases htr : transport m (buildUrl c endpoint) data (objSpread c.defaultHeaders headers) with
    | ok r0 => simp [runRequest, htr] at hre
    | err e =>
      have hre2 : handleError c e startTime endTime = re := by
        simpa [runRequest, htr] using hre
      subst hre2
      cases he : e.response with
      | none =>
        cases hti : e.timeout with
        | true => simp [handleError, he, hti, carriesResponse] at hr
        | false => simp [handleError, he, hti, carriesResponse] at hr
      | some r0 =>
        have hr2 : { r0 with duration := some (endTime - startTime) } = r := by
          simpa [handleError, he, addTimingInfo, carriesResponse] using hr
        subst hr2
        refine ⟨⟨endTime - startTime, rfl, by omega⟩, ?_, ?_⟩
        · cases hs : r0.status with
          | none => simp [errorKind, handleError, he, addTimingInfo, hs]
          | some s =>
            by_cases h45 : 400 ≤ s ∧ s < 500
            · simp [errorKind, handleError, he, addTimingInfo, hs, h45]
            · by_cases h56 : 500 ≤ s ∧ s < 600
              · simp [errorKind, handleError, he, addTimingInfo, hs, h45, h56]
              · simp [errorKind, handleError, he, addTimingInfo, hs, h45, h56]
        · cases hs : r0.status with
          | none => simp [errorKind, handleError, he, addTimingInfo, hs]
          | some s =>
            by_cases h45 : 400 ≤ s ∧ s < 500
            · simp [errorKind, handleError, he, addTimingInfo, hs, h45]
            · by_cases h56 : 500 ≤ s ∧ s < 600
              · simp [errorKind, handleError, he, addTimingInfo, hs, h45, h56]
              · simp [errorKind, handleError, he, addTimingInfo, hs, h45, h56]

/-- Witness for C4: a successful transport call with start time 2 and end
time 7 is returned with nonnegative duration. -/
theorem C4_duration_invariant_witness :
    ∃ d, (runRequest cfgClient .get (some "/users") none [] okTransport 2 7).result
        = .ok { okResp with duration := some d } ∧ 0 ≤ d :=
  (C4_duration_invariant cfgClient .get (some "/users") none [] okTransport 2 7
    (by norm_num)).1 okResp rfl

/-- C5: the headers sent on a request are the spread of the per-call
overrides over the client defaults; for every key the override value wins
on collision and otherwise the default value is used; and the concrete
merge of defaults A:1 with overrides A:2, B:3 yields exactly A:2, B:3. -/
theorem C5_header_merge_right_biased (c : HttpClient) (m : Method) (endpoint : Option String)
    (data : Option JsVal) (headers : List (String × String))
    (transport : Method → String → Option JsVal → List (String × String) → TransportResult)
    (startTime endTime : Int)
    (hnd : (headers.map Prod.fst).Nodup) :
    (runRequest c m endpoint data headers transport startTime endTime).sentHeaders
        = objSpread c.defaultHeaders headers ∧
    (∀ k v, aLookup k headers = some v →
      aLookup k (objSpread c.defaultHeaders headers) = some v) ∧
    (∀ k, aLookup k headers = none →
      aLookup k (objSpread c.defaultHeaders headers) = aLookup k c.defaultHeaders) ∧
    objSpread [("A", "1")] [("A", "2"), ("B", "3")] = [("A", "2"), ("B", "3")] := by
  refine ⟨?_, ?_, ?_, by decide⟩
  · cases htr : transport m (buildUrl c endpoint) data (objSpread c.defaultHeaders headers) <;>
      simp [runRequest, htr]
  · intro k v hv
    have h := objSpread_aLookup headers hnd c.defaultHeaders k
    rw [hv] at h
    exact h
  · intro k hnone
    exact objSpread_aLookup_of_none headers k hnone c.defaultHeaders

/-- Witness for C5: the concrete right-biased merge example. -/
theorem C5_header_merge_right_biased_witness :
    objSpread [("A", "1")] [("A", "2"), ("B", "3")] = [("A", "2"), ("B", "3")] :=
  (C5_header_merge_right_biased cfgClient .get (some "/users") none [] okTransport 0 1
    (by simp)).2.2.2

/-- C9 counterexample: after setAuthToken, a request whose per-call headers
set Authorization sends the per-call value, not the bearer header, so the
claim that every subsequent request sends the bearer header fails. -/
theorem C9_per_call_override_counterexample :
    aLookup "Authorization"
        (getReq (setAuthToken cfgClient "token123") (some "/users")
          [("Authorization", "Basic xyz")] okTransport 0 1).sentHeaders
      = some "Basic xyz" ∧
    ("Basic xyz" : String) ≠ "Bearer " ++ "token123" := by
  exact ⟨by decide, by decide⟩

/-- C9 (amended): after setAuthToken the default header mapping contains
Authorization with value Bearer token, every other default header keeps
its prior value, and every subsequent request whose per-call headers do
not themselves set Authorization sends this bearer header. -/
theorem C9_set_auth_token (c : HttpClient) (t : String) :
    aLookup "Authorization" (setAuthToken c t).defaultHeaders = some ("Bearer " ++ t) ∧
    (∀ k, k ≠ "Authorization" →
      aLookup k (setAuthToken c t).defaultHeaders = aLookup k c.defaultHeaders) ∧
    (∀ (m : Method) (endpoint : Option String) (data : Option JsVal)
        (headers : List (String × String))
        (transport : Method → String → Option JsVal → List (String × String) → TransportResult)
        (startTime endTime : Int),
      aLookup "Authorization" headers = none →
      aLookup "Authorization"
          (runRequest (setAuthToken c t) m endpoint data headers transport
            startTime endTime).sentHeaders
        = some ("Bearer " ++ t)) := by
  have hdef : (setAuthToken c t).defaultHeaders
      = objInsert c.defaultHeaders "Authorization" ("Bearer " ++ t) := rfl
  have hauth : aLookup "Authorization" (setAuthToken c t).defaultHeaders
      = some ("Bearer " ++ t) := by
    rw [hdef, aLookup_objInsert, if_pos rfl]
  refine ⟨hauth, ?_, ?_⟩
  · intro k hk
    rw [hdef, aLookup_objInsert, if_neg hk]
  · intro m endpoint data headers transport startTime endTime hnone
    have hsent : (runRequest (setAuthToken c t) m endpoint data headers transport
        startTime endTime).sentHeaders
        = objSpread (setAuthToken c t).defaultHeaders headers := by
      cases htr : transport m (buildUrl (setAuthToken c t) endpoint) data
          (objSpread (setAuthToken c t).defaultHeaders headers) <;>
        simp [runRequest, htr]
    rw [hsent, objSpread_aLookup_of_none headers "Authorization" hnone, hauth]

/-- Witness for C9 (amended): after setting the token, a request with no
per-call Authorization override sends the bearer header. -/
theorem C9_set_auth_token_witness :
    aLookup "Authorization"
        (runRequest (setAuthToken cfgClient "token123") .get (some "/users") none []
          okTransport 0 1).sentHeaders
      = some ("Bearer " ++ "token123") :=
  (C9_set_auth_token cfgClient "token123").2.2 .get (some "/users") none [] okTransport 0 1 rfl

/-- Response passing every resource-client check but exceeding the
page-object response-time bound. -/
def slowOkResp : RespObj :=
  { status := some 200, body := some (.vobj 2),
    headers := some [("content-type", "application/json")],
    duration := some 4000, responseTime := none }

/-- Response passing both wrappers: 200, JSON, duration 120. -/
def fastOkResp : RespObj :=
  { status := some 200, body := some (.vobj 2),
    headers := some [("content-type", "application/json")],
    duration := some 120, responseTime := none }

/-- C6 counterexample: on a 200 JSON response with duration 4000 the
resource-client wrapper accepts and returns the body while the page-object
wrapper raises, so the two validateSuccessResponse operations are not
functionally interchangeable. -/
theorem C6_wrappers_differ_counterexample :
    apiValidateSuccessResponse slowOkResp 200 = some (.vobj 2) ∧
    pageValidateSuccessResponse slowOkResp 200 = none := by
  exact ⟨rfl, rfl⟩

/-- C6 (amended): the page-object validator performs exactly the
resource-client checks plus a response-time check at bound 3000, so
whenever the page-object wrapper accepts a response the resource-client
wrapper accepts it with the same body, but not conversely. -/
theorem C6_wrappers_relation (r : RespObj) (expectedStatus : Nat) :
    pageValidateSuccessResponse r expectedStatus
      = (match apiValidateSuccessResponse r expectedStatus with
         | some b => if validateResponseTime r 3000 then some b else none
         | none => none) ∧
    (∀ b, pageValidateSuccessResponse r expectedStatus = some b →
      apiValidateSuccessResponse r expectedStatus = some b) := by
  have h1 : pageValidateAndGetBody r expectedStatus
      = apiValidateSuccessResponse r expectedStatus := rfl
  constructor
  · rfl
  · intro b hb
    unfold pageValidateSuccessResponse at hb
    rw [h1] at hb
    cases hc : apiValidateSuccessResponse r expectedStatus with
    | none =>
      rw [hc] at hb
      simp at hb
    | some b0 =>
      rw [hc] at hb
      by_cases hv : validateResponseTime r 3000 = true
      · simp [hv] at hb
        rw [hb]
      · simp [hv] at hb

/-- Witness for C6 (amended): a response accepted by the page-object
wrapper is accepted by the resource-client wrapper with the same body. -/
theorem C6_wrappers_relation_witness :
    apiValidateSuccessResponse fastOkResp 200 = some (.vobj 2) :=
  (C6_wrappers_relation fastOkResp 200).2 (.vobj 2) rfl

/-- C7 counterexample: a get with a missing endpoint argument does not
raise a precondition error; the URL requested is the base URL concatenated
with the string undefined and the transport response is returned
normally. -/
theorem C7_missing_endpoint_counterexample :
    (getReq cfgClient none [] okTransport 0 1).url
        = "https://jsonplaceholder.typicode.com" ++ "undefined" ∧
    (getReq cfgClient none [] okTransport 0 1).result
        = .ok { okResp with duration := some 1 } := by
  exact ⟨rfl, rfl⟩

/-- C7 (amended): a verb operation called with a missing endpoint does not
raise: the missing argument is interpolated into the URL as the string
undefined, the request is issued against the base URL concatenated with
undefined, and when the transport succeeds on that URL the operation
returns its response with timing attached. -/
theorem C7_missing_endpoint (c : HttpClient) (m : Method) (data : Option JsVal)
    (headers : List (String × String))
    (transport : Method → String → Option JsVal → List (String × String) → TransportResult)
    (startTime endTime : Int) :
    (runRequest c m none data headers transport startTime endTime).url
        = c.baseUrl ++ "undefined" ∧
    (∀ r, transport m (c.baseUrl ++ "undefined") data (objSpread c.defaultHeaders headers)
          = .ok r →
      (runRequest c m none data headers transport startTime endTime).result
        = .ok (addTimingInfo r startTime endTime)) := by
  have hurl : buildUrl c none = c.baseUrl ++ "undefined" := rfl
  constructor
  · rw [← hurl]
    cases htr : transport m (buildUrl c none) data (objSpread c.defaultHeaders headers) <;>
      simp [runRequest, htr]
  · intro r htr
    rw [← hurl] at htr
    simp [runRequest, htr]

/-- Witness for C7 (amended): with a succeeding transport, the get with
missing endpoint returns normally. -/
theorem C7_missing_endpoint_witness :
    (runRequest cfgClient .get none none [] okTransport 0 1).result
      = .ok (addTimingInfo okResp 0 1) :=
  (C7_missing_endpoint cfgClient .get none [] okTransport 0 1).2 okResp rfl

/-- C8: the User schema validator fails whenever any one of the eight
required fields is absent, and passes for every object carrying all eight
fields with the section-3 types, regardless of any extra fields the object
carries. -/
theorem C8_user_schema (u : List (String × JsVal)) :
    (∀ k, k ∈ userRequiredFields → aLookup k u = none → validateUserSchema u = false) ∧
    ((∃ n, aLookup "id" u = some (.vnum n)) →
     (∃ s, aLookup "name" u = some (.vstr s)) →
     (∃ s, aLookup "username" u = some (.vstr s)) →
     (∃ s, aLookup "email" u = some (.vstr s)) →
     (∃ s, aLookup "phone" u = some (.vstr s)) →
     (∃ s, aLookup "website" u = some (.vstr s)) →
     (∃ t, aLookup "address" u = some (.vobj t)) →
     (∃ t, aLookup "company" u = some (.vobj t)) →
     validateUserSchema u = true) := by
  constructor
  · intro k hk hnone
    fin_cases hk <;>
      simp [validateUserSchema, hnone, isNumProp, isStrProp, isObjProp]
  · intro h1 h2 h3 h4 h5 h6 h7 h8
    obtain ⟨n1, e1⟩ := h1
    obtain ⟨s2, e2⟩ := h2
    obtain ⟨s3, e3⟩ := h3
    obtain ⟨s4, e4⟩ := h4
    obtain ⟨s5, e5⟩ := h5
    obtain ⟨s6, e6⟩ := h6
    obtain ⟨t7, e7⟩ := h7
    obtain ⟨t8, e8⟩ := h8
    simp [validateUserSchema, e1, e2, e3, e4, e5, e6, e7, e8,
      isNumProp, isStrProp, isObjProp]

/-- Sample user record with all eight required fields and one extra
field. -/
def sampleUser : List (String × JsVal) :=
  [("id", .vnum 1), ("name", .vstr "Leanne Graham"), ("username", .vstr "Bret"),
   ("email", .vstr "Sincere@april.biz"), ("phone", .vstr "1-770-736-8031 x56442"),
   ("website", .vstr "hildegard.org"), ("address", .vobj 10), ("company", .vobj 11),
   ("extra", .vbool true)]

/-- Witness for C8: the sample user with an extra field passes the
validator. -/
theorem C8_user_schema_witness :
    validateUserSchema sampleUser = true :=
  (C8_user_schema sampleUser).2 ⟨1, rfl⟩ ⟨_, rfl⟩ ⟨_, rfl⟩ ⟨_, rfl⟩ ⟨_, rfl⟩ ⟨_, rfl⟩
    ⟨_, rfl⟩ ⟨_, rfl⟩

/-- The custom clientErrorStatus assertion passes on a response with
status some s exactly when 400 <= s < 500. -/
theorem chaiClientErrorStatus_iff (r : RespObj) (s : Nat) (hs : r.status = some s) :
    chaiClientErrorStatus r = true ↔ (400 ≤ s ∧ s < 500) := by
  by_cases h0 : s = 0
  · subst h0
    constructor
    · intro h
      simp [chaiClientErrorStatus, hs] at h
    · intro h
      exact absurd h.1 (by omega)
  · simp [chaiClientErrorStatus, hs, h0]

/-- C10: expectClientError raises when the wrapped request succeeds (the
fresh failure has no response and is re-raised by the own catch block);
when the request rejects with an error carrying a response, it completes
and returns that response exactly when the status is a 4xx equal to the
expected status, and raises an assertion failure on any other attached
response; a rejection without attached response is re-raised unchanged. -/
theorem C10_expect_client_error (expectedStatus : Nat) :
    (∀ v : JsVal, expectClientError (.ok v) expectedStatus = .raisedExpectedFailure) ∧
    (∀ r : RespObj,
      (expectClientError (.error (.withResponse r)) expectedStatus = .returned r ↔
        r.status = some expectedStatus ∧ 400 ≤ expectedStatus ∧ expectedStatus < 500) ∧
      (¬ (r.status = some expectedStatus ∧ 400 ≤ expectedStatus ∧ expectedStatus < 500) →
        ∃ msg, expectClientError (.error (.withResponse r)) expectedStatus
          = .assertionFailed msg)) ∧
    (∀ t : Nat, expectClientError (.error (.plain t)) expectedStatus
        = .rethrown (.plain t)) := by
  refine ⟨fun v => rfl, ?_, fun t => rfl⟩
  intro r
  constructor
  · constructor
    · intro h
      by_cases hc : chaiClientErrorStatus r = true
      · by_cases he : (r.status == some expectedStatus) = true
        · have hs : r.status = some expectedStatus := by simpa using he
          have hrange := (chaiClientErrorStatus_iff r expectedStatus hs).mp hc
          exact ⟨hs, hrange.1, hrange.2⟩
        · simp [expectClientError, hc, he] at h
      · simp [expectClientError, hc] at h
    · rintro ⟨hs, h4, h5⟩
      have hc : chaiClientErrorStatus r = true :=
        (chaiClientErrorStatus_iff r expectedStatus hs).mpr ⟨h4, h5⟩
      have he : (r.status == some expectedStatus) = true := by simp [hs]
      simp [expectClientError, hc, he]
  · intro hnot
    by_cases hc : chaiClientErrorStatus r = true
    · by_cases he : (r.status == some expectedStatus) = true
      · have hs : r.status = some expectedStatus := by simpa using he
        have hrange := (chaiClientErrorStatus_iff r expectedStatus hs).mp hc
        exact absurd ⟨hs, hrange.1, hrange.2⟩ hnot
      · exact ⟨"expected status to equal the expected status",
          by simp [expectClientError, hc, he]⟩
    · exact ⟨"expected status to be client error 4xx",
        by simp [expectClientError, hc]⟩

/-- Witness for C10: a rejection carrying a 404 response checked against
expected status 404 returns that response. -/
theorem C10_expect_client_error_witness :
    expectClientError (.error (.withResponse resp404)) 404 = .returned resp404 :=
  ((C10_expect_client_error 404).2.1 resp404).1.mpr ⟨rfl, by omega, by omega⟩

end MochaDemo
